import Mathlib

/-!
Shallow embedding of the CSS selector builder from
`src/06-objects-tasks.js` (class `CSSSelectorBuilder` and the
`cssSelectorBuilder` facade), together with proofs of the stated
properties.

The JS class mutates `this`; we model each method as a function from the
receiver's state to `Option SelErr × State`, where the returned state is
the receiver's state at the moment the method returns normally or throws
(so claims about what an error leaves behind are meaningful).
The JS field `weight` is initialised to `null`; in the comparison
`weight < this.weight` JavaScript coerces `null` to `0`, which we model
by `Option Nat` together with `Option.getD 0`.
-/

/-- State of one `CSSSelectorBuilder` instance: the constructor sets
`this.string = ''`, the three `exists*` flags to `false` and
`this.weight = null`. -/
structure CSSSelectorBuilder where
  string : String
  existsElement : Bool
  existsId : Bool
  existsPseudoElement : Bool
  weight : Option Nat
deriving Repr, DecidableEq

/-- The two error messages the class can throw: `uniqueness` for
"Element, id and pseudo-element should not occur more then one time
inside the selector" and `order` for "Selector parts should be arranged
in the following order: element, id, class, attribute, pseudo-class,
pseudo-element". -/
inductive SelErr where
  | uniqueness
  | order
deriving Repr, DecidableEq

/-- `cssSelectorBuilder.createObject()`: `new CSSSelectorBuilder()`. -/
def createObject : CSSSelectorBuilder :=
  { string := "", existsElement := false, existsId := false
    existsPseudoElement := false, weight := none }

/-- `checkIfDuplicate(selectorType)`: looks up the flag for the three
singleton categories (for any other tag `isDuplicate` stays `undefined`,
which is falsy) and throws the uniqueness error if it is set. -/
def CSSSelectorBuilder.checkIfDuplicate (s : CSSSelectorBuilder)
    (selectorType : String) : Option SelErr :=
  let isDuplicate :=
    if selectorType = "element" then s.existsElement
    else if selectorType = "id" then s.existsId
    else if selectorType = "pseudo-element" then s.existsPseudoElement
    else false
  if isDuplicate then some SelErr.uniqueness else none

/-- `checkSelectorWeight(weight)`: throws the order error when
`weight < this.weight` (with `null` comparing as `0`), otherwise stores
`this.weight = weight`. -/
def CSSSelectorBuilder.checkSelectorWeight (s : CSSSelectorBuilder)
    (weight : Nat) : Option SelErr × CSSSelectorBuilder :=
  if weight < s.weight.getD 0 then (some SelErr.order, s)
  else (none, { s with weight := some weight })

/-- `setValue(value, selector)`: `this.string += selector + value`. -/
def CSSSelectorBuilder.setValue (s : CSSSelectorBuilder)
    (value selector : String) : CSSSelectorBuilder :=
  { s with string := s.string ++ (selector ++ value) }

/-- `element(value, selector = '')`. -/
def CSSSelectorBuilder.element (s : CSSSelectorBuilder) (value : String) :
    Option SelErr × CSSSelectorBuilder :=
  match s.checkIfDuplicate "element" with
  | some e => (some e, s)
  | none =>
    match s.checkSelectorWeight 1 with
    | (some e, s1) => (some e, s1)
    | (none, s1) =>
      let s2 := { s1 with existsElement := true }
      (none, s2.setValue value "")

/-- `id(value, selector = '#')`. -/
def CSSSelectorBuilder.id (s : CSSSelectorBuilder) (value : String) :
    Option SelErr × CSSSelectorBuilder :=
  match s.checkIfDuplicate "id" with
  | some e => (some e, s)
  | none =>
    match s.checkSelectorWeight 10 with
    | (some e, s1) => (some e, s1)
    | (none, s1) =>
      let s2 := { s1 with existsId := true }
      (none, s2.setValue value "#")

/-- `class(value, selector = '.')` (`class` is a Lean keyword, hence `cls`). -/
def CSSSelectorBuilder.cls (s : CSSSelectorBuilder) (value : String) :
    Option SelErr × CSSSelectorBuilder :=
  match s.checkSelectorWeight 100 with
  | (some e, s1) => (some e, s1)
  | (none, s1) => (none, s1.setValue value ".")

/-- `attr(value, selector = '')`: appends `'[' + value + ']'`. -/
def CSSSelectorBuilder.attr (s : CSSSelectorBuilder) (value : String) :
    Option SelErr × CSSSelectorBuilder :=
  match s.checkSelectorWeight 1000 with
  | (some e, s1) => (some e, s1)
  | (none, s1) => (none, s1.setValue ("[" ++ value ++ "]") "")

/-- `pseudoClass(value, selector = ':')`. -/
def CSSSelectorBuilder.pseudoClass (s : CSSSelectorBuilder) (value : String) :
    Option SelErr × CSSSelectorBuilder :=
  match s.checkSelectorWeight 10000 with
  | (some e, s1) => (some e, s1)
  | (none, s1) => (none, s1.setValue value ":")

/-- `pseudoElement(value, selector = '::')`. -/
def CSSSelectorBuilder.pseudoElement (s : CSSSelectorBuilder) (value : String) :
    Option SelErr × CSSSelectorBuilder :=
  match s.checkIfDuplicate "pseudo-element" with
  | some e => (some e, s)
  | none =>
    match s.checkSelectorWeight 100000 with
    | (some e, s1) => (some e, s1)
    | (none, s1) =>
      let s2 := { s1 with existsPseudoElement := true }
      (none, s2.setValue value "::")

/-- `stringify()`: returns `this.string`, then sets `this.string = ''`.
First component is the returned string, second the receiver afterwards. -/
def CSSSelectorBuilder.stringify (s : CSSSelectorBuilder) :
    String × CSSSelectorBuilder :=
  (s.string, { s with string := "" })

/-- `combine(selector1, combinator, selector2)`: evaluates
`selector1.stringify()` then `selector2.stringify()` and appends
`str1 + ' ' + combinator + ' ' + str2` to the receiver.  Returns the
receiver's new state, and the two arguments' states after being drained
by their `stringify` calls. -/
def CSSSelectorBuilder.combine (s : CSSSelectorBuilder)
    (selector1 : CSSSelectorBuilder) (combinator : String)
    (selector2 : CSSSelectorBuilder) :
    CSSSelectorBuilder × CSSSelectorBuilder × CSSSelectorBuilder :=
  let r1 := selector1.stringify
  let r2 := selector2.stringify
  (s.setValue (r1.1 ++ " " ++ combinator ++ " " ++ r2.1) "", r1.2, r2.2)

/-- `cssSelectorBuilder.combine`: `this.createObject().combine(...)`. -/
def cssSelectorBuilder.combine (selector1 : CSSSelectorBuilder)
    (combinator : String) (selector2 : CSSSelectorBuilder) :
    CSSSelectorBuilder × CSSSelectorBuilder × CSSSelectorBuilder :=
  createObject.combine selector1 combinator selector2

/-- One category-append operation, tagged with its value. -/
inductive SelectorOp where
  | element (value : String)
  | id (value : String)
  | cls (value : String)
  | attr (value : String)
  | pseudoClass (value : String)
  | pseudoElement (value : String)
deriving Repr, DecidableEq

/-- Dispatch an append operation to the corresponding method. -/
def applyOp : SelectorOp → CSSSelectorBuilder →
    Option SelErr × CSSSelectorBuilder
  | SelectorOp.element v, s => s.element v
  | SelectorOp.id v, s => s.id v
  | SelectorOp.cls v, s => s.cls v
  | SelectorOp.attr v, s => s.attr v
  | SelectorOp.pseudoClass v, s => s.pseudoClass v
  | SelectorOp.pseudoElement v, s => s.pseudoElement v

/-- The weight each method passes to `checkSelectorWeight`. -/
def rank : SelectorOp → Nat
  | SelectorOp.element _ => 1
  | SelectorOp.id _ => 10
  | SelectorOp.cls _ => 100
  | SelectorOp.attr _ => 1000
  | SelectorOp.pseudoClass _ => 10000
  | SelectorOp.pseudoElement _ => 100000

/-- Whether the operation is a singleton category whose flag is already
set on the instance (the condition `checkIfDuplicate` throws on). -/
def dupFlag (o : SelectorOp) (s : CSSSelectorBuilder) : Bool :=
  match o with
  | SelectorOp.element _ => s.existsElement
  | SelectorOp.id _ => s.existsId
  | SelectorOp.pseudoElement _ => s.existsPseudoElement
  | _ => false

/-- Run a list of append operations from a given state, stopping at the
first error (a thrown exception propagates to the caller). -/
def runOps : List SelectorOp → CSSSelectorBuilder →
    Option SelErr × CSSSelectorBuilder
  | [], s => (none, s)
  | o :: rest, s =>
    match applyOp o s with
    | (some e, s1) => (some e, s1)
    | (none, s1) => runOps rest s1

/-! ## Spec-side rendering (for the refinement claim about `stringify`)

The following definitions transcribe the specification's words: the
fragments are grouped by category, the categories are emitted in the
fixed order element, `#id`, `.class...`, `[attr]...`, `:pseudoClass...`,
`::pseudoElement`, and each repeatable category keeps insertion order. -/

/-- The data model of the spec: one optional token for each singleton
category and an insertion-ordered token list for each repeatable one. -/
structure SelectorParts where
  elementPart : Option String
  idPart : Option String
  classParts : List String
  attrParts : List String
  pseudoClassParts : List String
  pseudoElementPart : Option String
deriving Repr, DecidableEq

def emptyParts : SelectorParts := ⟨none, none, [], [], [], none⟩

/-- Group a sequence of append operations by category, keeping insertion
order inside each repeatable category (and the first token for a
singleton category, which under the uniqueness invariant is the only
one). -/
def collect : List SelectorOp → SelectorParts
  | [] => emptyParts
  | SelectorOp.element v :: rest => { collect rest with elementPart := some v }
  | SelectorOp.id v :: rest => { collect rest with idPart := some v }
  | SelectorOp.cls v :: rest =>
    let p := collect rest
    { p with classParts := v :: p.classParts }
  | SelectorOp.attr v :: rest =>
    let p := collect rest
    { p with attrParts := v :: p.attrParts }
  | SelectorOp.pseudoClass v :: rest =>
    let p := collect rest
    { p with pseudoClassParts := v :: p.pseudoClassParts }
  | SelectorOp.pseudoElement v :: rest =>
    { collect rest with pseudoElementPart := some v }

def strConcat : List String → String
  | [] => ""
  | a :: l => a ++ strConcat l

def optStr (pre : String) : Option String → String
  | none => ""
  | some v => pre ++ v

/-- Modelled from the spec: render the grouped fragments in the fixed
category order, element token verbatim, id prefixed with `#`, each class
prefixed with `.`, each attribute wrapped in `[` `]`, each pseudo-class
prefixed with `:`, pseudo-element prefixed with `::`. -/
def specRender (p : SelectorParts) : String :=
  optStr "" p.elementPart ++ optStr "#" p.idPart
    ++ strConcat (p.classParts.map (fun c => "." ++ c))
    ++ strConcat (p.attrParts.map (fun a => "[" ++ a ++ "]"))
    ++ strConcat (p.pseudoClassParts.map (fun c => ":" ++ c))
    ++ optStr "::" p.pseudoElementPart

/-- The text one successful append operation adds to the buffer. -/
def frag : SelectorOp → String
  | SelectorOp.element v => v
  | SelectorOp.id v => "#" ++ v
  | SelectorOp.cls v => "." ++ v
  | SelectorOp.attr v => "[" ++ v ++ "]"
  | SelectorOp.pseudoClass v => ":" ++ v
  | SelectorOp.pseudoElement v => "::" ++ v

def isElementOp : SelectorOp → Bool
  | SelectorOp.element _ => true
  | _ => false

def isIdOp : SelectorOp → Bool
  | SelectorOp.id _ => true
  | _ => false

def isClsOp : SelectorOp → Bool
  | SelectorOp.cls _ => true
  | _ => false

def isAttrOp : SelectorOp → Bool
  | SelectorOp.attr _ => true
  | _ => false

def isPseudoClassOp : SelectorOp → Bool
  | SelectorOp.pseudoClass _ => true
  | _ => false

def isPseudoElementOp : SelectorOp → Bool
  | SelectorOp.pseudoElement _ => true
  | _ => false

/-- The ranks of the operations are at least `w` and non-decreasing. -/
def ranksChain (w : Nat) : List SelectorOp → Bool
  | [] => true
  | o :: rest => decide (w ≤ rank o) && ranksChain (rank o) rest

/-! ## The facade: a world of allocated builder instances

`cssSelectorBuilder` is a stateless facade: every entry point calls
`this.createObject()` (allocating a brand-new `CSSSelectorBuilder`) and
delegates to the named method of that fresh instance.  To express
"the returned value shares no state with any previously returned value"
we model the JS heap as the list of builder instances allocated so far;
an index into the list is an object reference. -/

structure BuilderWorld where
  builders : List CSSSelectorBuilder
deriving Repr, DecidableEq

/-- One call to a facade entry point, arguments included (`combine`
takes references to two previously returned builders). -/
inductive FacadeCall where
  | element (value : String)
  | id (value : String)
  | cls (value : String)
  | attr (value : String)
  | pseudoClass (value : String)
  | pseudoElement (value : String)
  | combine (i : Nat) (combinator : String) (j : Nat)
deriving Repr, DecidableEq

/-- The category-append operation a facade entry point delegates to
(none for `combine`). -/
def catOf : FacadeCall → Option SelectorOp
  | FacadeCall.element v => some (SelectorOp.element v)
  | FacadeCall.id v => some (SelectorOp.id v)
  | FacadeCall.cls v => some (SelectorOp.cls v)
  | FacadeCall.attr v => some (SelectorOp.attr v)
  | FacadeCall.pseudoClass v => some (SelectorOp.pseudoClass v)
  | FacadeCall.pseudoElement v => some (SelectorOp.pseudoElement v)
  | FacadeCall.combine _ _ _ => none

/-- A facade category entry point: allocate a fresh instance
(`createObject`), then run the named method on it, in place. -/
def facadeCat (w : BuilderWorld) (o : SelectorOp) : BuilderWorld × Nat :=
  let l := w.builders ++ [createObject]
  let k := w.builders.length
  let st := (applyOp o (l.getD k createObject)).2
  (⟨l.set k st⟩, k)

/-- One facade call on the world: returns the new world and the index
(reference) of the returned builder.  `combine` allocates the composite
first, then drains `selector1` and `selector2` in evaluation order and
stores the joined text in the fresh instance. -/
def facadeStep (w : BuilderWorld) : FacadeCall → BuilderWorld × Nat
  | FacadeCall.element v => facadeCat w (SelectorOp.element v)
  | FacadeCall.id v => facadeCat w (SelectorOp.id v)
  | FacadeCall.cls v => facadeCat w (SelectorOp.cls v)
  | FacadeCall.attr v => facadeCat w (SelectorOp.attr v)
  | FacadeCall.pseudoClass v => facadeCat w (SelectorOp.pseudoClass v)
  | FacadeCall.pseudoElement v => facadeCat w (SelectorOp.pseudoElement v)
  | FacadeCall.combine i c j =>
    let l1 := w.builders ++ [createObject]
    let k := w.builders.length
    let r1 := (l1.getD i createObject).stringify
    let l2 := l1.set i r1.2
    let r2 := (l2.getD j createObject).stringify
    let l3 := l2.set j r2.2
    let st := (l3.getD k createObject).setValue
      (r1.1 ++ " " ++ c ++ " " ++ r2.1) ""
    (⟨l3.set k st⟩, k)


/-! ## Normal forms of the six append methods -/

theorem applyOp_element (s : CSSSelectorBuilder) (v : String) :
    applyOp (SelectorOp.element v) s =
      if s.existsElement = true then (some SelErr.uniqueness, s)
      else if 1 < s.weight.getD 0 then (some SelErr.order, s)
      else (none,
        { s with
            string := s.string ++ ("" ++ v)
            existsElement := true
            weight := some 1 }) := by
  by_cases hE : s.existsElement = true <;>
    by_cases hW : 1 < s.weight.getD 0 <;>
      simp [applyOp, CSSSelectorBuilder.element,
        CSSSelectorBuilder.checkIfDuplicate,
        CSSSelectorBuilder.checkSelectorWeight,
        CSSSelectorBuilder.setValue, hE, hW]

theorem applyOp_id (s : CSSSelectorBuilder) (v : String) :
    applyOp (SelectorOp.id v) s =
      if s.existsId = true then (some SelErr.uniqueness, s)
      else if 10 < s.weight.getD 0 then (some SelErr.order, s)
      else (none,
        { s with
            string := s.string ++ ("#" ++ v)
            existsId := true
            weight := some 10 }) := by
  by_cases hE : s.existsId = true <;>
    by_cases hW : 10 < s.weight.getD 0 <;>
      simp [applyOp, CSSSelectorBuilder.id,
        CSSSelectorBuilder.checkIfDuplicate,
        CSSSelectorBuilder.checkSelectorWeight,
        CSSSelectorBuilder.setValue, hE, hW]

theorem applyOp_cls (s : CSSSelectorBuilder) (v : String) :
    applyOp (SelectorOp.cls v) s =
      if 100 < s.weight.getD 0 then (some SelErr.order, s)
      else (none,
        { s with
            string := s.string ++ ("." ++ v)
            weight := some 100 }) := by
  by_cases hW : 100 < s.weight.getD 0 <;>
    simp [applyOp, CSSSelectorBuilder.cls,
      CSSSelectorBuilder.checkSelectorWeight,
      CSSSelectorBuilder.setValue, hW]

theorem applyOp_attr (s : CSSSelectorBuilder) (v : String) :
    applyOp (SelectorOp.attr v) s =
      if 1000 < s.weight.getD 0 then (some SelErr.order, s)
      else (none,
        { s with
            string := s.string ++ ("" ++ ("[" ++ v ++ "]"))
            weight := some 1000 }) := by
  by_cases hW : 1000 < s.weight.getD 0 <;>
    simp [applyOp, CSSSelectorBuilder.attr,
      CSSSelectorBuilder.checkSelectorWeight,
      CSSSelectorBuilder.setValue, hW]

theorem applyOp_pseudoClass (s : CSSSelectorBuilder) (v : String) :
    applyOp (SelectorOp.pseudoClass v) s =
      if 10000 < s.weight.getD 0 then (some SelErr.order, s)
      else (none,
        { s with
            string := s.string ++ (":" ++ v)
            weight := some 10000 }) := by
  by_cases hW : 10000 < s.weight.getD 0 <;>
    simp [applyOp, CSSSelectorBuilder.pseudoClass,
      CSSSelectorBuilder.checkSelectorWeight,
      CSSSelectorBuilder.setValue, hW]

theorem applyOp_pseudoElement (s : CSSSelectorBuilder) (v : String) :
    applyOp (SelectorOp.pseudoElement v) s =
      if s.existsPseudoElement = true then (some SelErr.uniqueness, s)
      else if 100000 < s.weight.getD 0 then (some SelErr.order, s)
      else (none,
        { s with
            string := s.string ++ ("::" ++ v)
            existsPseudoElement := true
            weight := some 100000 }) := by
  by_cases hE : s.existsPseudoElement = true <;>
    by_cases hW : 100000 < s.weight.getD 0 <;>
      simp [applyOp, CSSSelectorBuilder.pseudoElement,
        CSSSelectorBuilder.checkIfDuplicate,
        CSSSelectorBuilder.checkSelectorWeight,
        CSSSelectorBuilder.setValue, hE, hW]

/-! ## What one successful append does to the state -/

theorem applyOp_ok (o : SelectorOp) (s s1 : CSSSelectorBuilder)
    (h : applyOp o s = (none, s1)) :
    s1.string = s.string ++ frag o
    ∧ s1.weight = some (rank o)
    ∧ s.weight.getD 0 ≤ rank o
    ∧ s1.existsElement = (s.existsElement || isElementOp o)
    ∧ s1.existsId = (s.existsId || isIdOp o)
    ∧ s1.existsPseudoElement = (s.existsPseudoElement || isPseudoElementOp o)
    ∧ (isElementOp o = true → s.existsElement = false)
    ∧ (isIdOp o = true → s.existsId = false)
    ∧ (isPseudoElementOp o = true → s.existsPseudoElement = false) := by
  cases o with
  | element v =>
    rw [applyOp_element] at h
    by_cases hE : s.existsElement = true
    · simp [hE] at h
    · by_cases hW : 1 < s.weight.getD 0
      · simp [hE, hW] at h
      · simp [hE, hW] at h
        subst h
        simp only [Bool.not_eq_true] at hE
        simp [frag, rank, isElementOp, isIdOp, isPseudoElementOp, hE]
        omega
  | id v =>
    rw [applyOp_id] at h
    by_cases hE : s.existsId = true
    · simp [hE] at h
    · by_cases hW : 10 < s.weight.getD 0
      · simp [hE, hW] at h
      · simp [hE, hW] at h
        subst h
        simp only [Bool.not_eq_true] at hE
        simp [frag, rank, isElementOp, isIdOp, isPseudoElementOp, hE]
        omega
  | cls v =>
    rw [applyOp_cls] at h
    by_cases hW : 100 < s.weight.getD 0
    · simp [hW] at h
    · simp [hW] at h
      subst h
      simp [frag, rank, isElementOp, isIdOp, isPseudoElementOp]
      omega
  | attr v =>
    rw [applyOp_attr] at h
    by_cases hW : 1000 < s.weight.getD 0
    · simp [hW] at h
    · simp [hW] at h
      subst h
      simp [frag, rank, isElementOp, isIdOp, isPseudoElementOp]
      omega
  | pseudoClass v =>
    rw [applyOp_pseudoClass] at h
    by_cases hW : 10000 < s.weight.getD 0
    · simp [hW] at h
    · simp [hW] at h
      subst h
      simp [frag, rank, isElementOp, isIdOp, isPseudoElementOp]
      omega
  | pseudoElement v =>
    rw [applyOp_pseudoElement] at h
    by_cases hE : s.existsPseudoElement = true
    · simp [hE] at h
    · by_cases hW : 100000 < s.weight.getD 0
      · simp [hE, hW] at h
      · simp [hE, hW] at h
        subst h
        simp only [Bool.not_eq_true] at hE
        simp [frag, rank, isElementOp, isIdOp, isPseudoElementOp, hE]
        omega

/-! ## Error behaviour of one append -/

theorem applyOp_dup (o : SelectorOp) (s : CSSSelectorBuilder)
    (hD : dupFlag o s = true) :
    applyOp o s = (some SelErr.uniqueness, s) := by
  cases o with
  | element v => simp [dupFlag] at hD; simp [applyOp_element, hD]
  | id v => simp [dupFlag] at hD; simp [applyOp_id, hD]
  | cls v => simp [dupFlag] at hD
  | attr v => simp [dupFlag] at hD
  | pseudoClass v => simp [dupFlag] at hD
  | pseudoElement v => simp [dupFlag] at hD; simp [applyOp_pseudoElement, hD]

theorem applyOp_order (o : SelectorOp) (s : CSSSelectorBuilder)
    (hD : dupFlag o s = false) (hO : rank o < s.weight.getD 0) :
    applyOp o s = (some SelErr.order, s) := by
  cases o with
  | element v =>
    simp [dupFlag] at hD; simp [rank] at hO; simp [applyOp_element, hD, hO]
  | id v =>
    simp [dupFlag] at hD; simp [rank] at hO; simp [applyOp_id, hD, hO]
  | cls v => simp [rank] at hO; simp [applyOp_cls, hO]
  | attr v => simp [rank] at hO; simp [applyOp_attr, hO]
  | pseudoClass v => simp [rank] at hO; simp [applyOp_pseudoClass, hO]
  | pseudoElement v =>
    simp [dupFlag] at hD; simp [rank] at hO
    simp [applyOp_pseudoElement, hD, hO]

theorem applyOp_none (o : SelectorOp) (s : CSSSelectorBuilder)
    (hD : dupFlag o s = false) (hle : s.weight.getD 0 ≤ rank o) :
    (applyOp o s).1 = none := by
  cases o with
  | element v =>
    simp [rank] at hle; simp [dupFlag] at hD; simp [applyOp_element, hD]
    rw [if_neg (by omega)]
  | id v =>
    simp [rank] at hle; simp [dupFlag] at hD; simp [applyOp_id, hD]
    rw [if_neg (by omega)]
  | cls v =>
    simp [rank] at hle; simp [applyOp_cls]; rw [if_neg (by omega)]
  | attr v =>
    simp [rank] at hle; simp [applyOp_attr]; rw [if_neg (by omega)]
  | pseudoClass v =>
    simp [rank] at hle; simp [applyOp_pseudoClass]; rw [if_neg (by omega)]
  | pseudoElement v =>
    simp [rank] at hle; simp [dupFlag] at hD; simp [applyOp_pseudoElement, hD]
    rw [if_neg (by omega)]

theorem applyOp_err_frame (o : SelectorOp) (s : CSSSelectorBuilder)
    (e : SelErr) (h : (applyOp o s).1 = some e) :
    (applyOp o s).2 = s := by
  by_cases hD : dupFlag o s = true
  · rw [applyOp_dup o s hD]
  · rw [Bool.not_eq_true] at hD
    by_cases hO : rank o < s.weight.getD 0
    · rw [applyOp_order o s hD hO]
    · rw [applyOp_none o s hD (by omega)] at h
      simp at h

theorem applyOp_err_iff (o : SelectorOp) (s : CSSSelectorBuilder) :
    (applyOp o s).1 = none
      ↔ (dupFlag o s = false ∧ s.weight.getD 0 ≤ rank o) := by
  constructor
  · intro h
    by_cases hD : dupFlag o s = true
    · rw [applyOp_dup o s hD] at h; simp at h
    · rw [Bool.not_eq_true] at hD
      by_cases hO : rank o < s.weight.getD 0
      · rw [applyOp_order o s hD hO] at h; simp at h
      · exact ⟨hD, by omega⟩
  · intro ⟨hD, hle⟩
    exact applyOp_none o s hD hle

/-! ## What a whole successful run guarantees -/

theorem count_step (n : Nat) (bOld bOp bNew : Bool)
    (hNew : bNew = (bOld || bOp)) (hDup : bOp = true → bOld = false)
    (hRest : n + (if bNew = true then 1 else 0) ≤ 1) :
    n + (if bOp = true then 1 else 0) + (if bOld = true then 1 else 0) ≤ 1 := by
  subst hNew
  cases bOp <;> cases bOld <;> simp_all

theorem runOps_ok (ops : List SelectorOp) :
    ∀ (s s1 : CSSSelectorBuilder), runOps ops s = (none, s1) →
    s1.string = s.string ++ strConcat (ops.map frag)
    ∧ ranksChain (s.weight.getD 0) ops = true
    ∧ ops.countP isElementOp + (if s.existsElement = true then 1 else 0) ≤ 1
    ∧ ops.countP isIdOp + (if s.existsId = true then 1 else 0) ≤ 1
    ∧ ops.countP isPseudoElementOp
        + (if s.existsPseudoElement = true then 1 else 0) ≤ 1 := by
  induction ops with
  | nil =>
    intro s s1 h
    simp [runOps] at h
    subst h
    refine ⟨by simp [strConcat], by simp [ranksChain], ?_, ?_, ?_⟩ <;>
      simp <;> split <;> omega
  | cons o rest ih =>
    intro s s1 h
    simp only [runOps] at h
    rcases hA : applyOp o s with ⟨e, sMid⟩
    rw [hA] at h
    cases e with
    | some e => simp at h
    | none =>
      simp only at h
      obtain ⟨hstr, hw, hle, hfe, hfi, hfp, hde, hdi, hdp⟩ :=
        applyOp_ok o s sMid hA
      obtain ⟨istr, ichain, ice, ici, icp⟩ := ih sMid s1 h
      refine ⟨?_, ?_, ?_, ?_, ?_⟩
      · simp [istr, hstr, strConcat, String.append_assoc]
      · rw [hw] at ichain
        simp only [Option.getD_some] at ichain
        simp [ranksChain, ichain]
        omega
      · rw [List.countP_cons]
        exact count_step _ _ _ _ hfe hde ice
      · rw [List.countP_cons]
        exact count_step _ _ _ _ hfi hdi ici
      · rw [List.countP_cons]
        exact count_step _ _ _ _ hfp hdp icp


/-! ## Rank chains and category grouping -/

theorem ranksChain_mem (ops : List SelectorOp) :
    ∀ (w : Nat), ranksChain w ops = true → ∀ o ∈ ops, w ≤ rank o := by
  induction ops with
  | nil => intro w h o ho; simp at ho
  | cons a rest ih =>
    intro w h o ho
    simp only [ranksChain, Bool.and_eq_true, decide_eq_true_eq] at h
    obtain ⟨h1, h2⟩ := h
    rcases List.mem_cons.mp ho with rfl | ho2
    · exact h1
    · exact le_trans h1 (ih (rank a) h2 o ho2)

theorem rank_ge_pe (o : SelectorOp) (h : 100000 ≤ rank o) :
    isPseudoElementOp o = true := by
  cases o <;> simp [isPseudoElementOp] <;> simp [rank] at h

theorem no_elem_of_rank (ops : List SelectorOp) (w : Nat) (hw : 2 ≤ w)
    (hmem : ∀ o ∈ ops, w ≤ rank o) : ops.countP isElementOp = 0 := by
  rw [List.countP_eq_zero]
  intro a ha
  have h := hmem a ha
  cases a <;> simp [isElementOp] <;> simp [rank] at h <;> omega

theorem no_id_of_rank (ops : List SelectorOp) (w : Nat) (hw : 11 ≤ w)
    (hmem : ∀ o ∈ ops, w ≤ rank o) : ops.countP isIdOp = 0 := by
  rw [List.countP_eq_zero]
  intro a ha
  have h := hmem a ha
  cases a <;> simp [isIdOp] <;> simp [rank] at h <;> omega

theorem no_cls_of_rank (ops : List SelectorOp) (w : Nat) (hw : 101 ≤ w)
    (hmem : ∀ o ∈ ops, w ≤ rank o) : ops.countP isClsOp = 0 := by
  rw [List.countP_eq_zero]
  intro a ha
  have h := hmem a ha
  cases a <;> simp [isClsOp] <;> simp [rank] at h <;> omega

theorem no_attr_of_rank (ops : List SelectorOp) (w : Nat) (hw : 1001 ≤ w)
    (hmem : ∀ o ∈ ops, w ≤ rank o) : ops.countP isAttrOp = 0 := by
  rw [List.countP_eq_zero]
  intro a ha
  have h := hmem a ha
  cases a <;> simp [isAttrOp] <;> simp [rank] at h <;> omega

theorem no_pc_of_rank (ops : List SelectorOp) (w : Nat) (hw : 10001 ≤ w)
    (hmem : ∀ o ∈ ops, w ≤ rank o) : ops.countP isPseudoClassOp = 0 := by
  rw [List.countP_eq_zero]
  intro a ha
  have h := hmem a ha
  cases a <;> simp [isPseudoClassOp] <;> simp [rank] at h <;> omega

theorem collect_elem_none (ops : List SelectorOp) :
    ops.countP isElementOp = 0 → (collect ops).elementPart = none := by
  induction ops with
  | nil => intro h0; rfl
  | cons o rest ih =>
    intro h0
    rw [List.countP_cons] at h0
    cases o with
    | element v => simp [isElementOp] at h0
    | id v =>
      simp [collect]
      exact ih (by simpa [isElementOp] using h0)
    | cls v =>
      simp [collect]
      exact ih (by simpa [isElementOp] using h0)
    | attr v =>
      simp [collect]
      exact ih (by simpa [isElementOp] using h0)
    | pseudoClass v =>
      simp [collect]
      exact ih (by simpa [isElementOp] using h0)
    | pseudoElement v =>
      simp [collect]
      exact ih (by simpa [isElementOp] using h0)

theorem collect_id_none (ops : List SelectorOp) :
    ops.countP isIdOp = 0 → (collect ops).idPart = none := by
  induction ops with
  | nil => intro h0; rfl
  | cons o rest ih =>
    intro h0
    rw [List.countP_cons] at h0
    cases o with
    | element v =>
      simp [collect]
      exact ih (by simpa [isIdOp] using h0)
    | id v => simp [isIdOp] at h0
    | cls v =>
      simp [collect]
      exact ih (by simpa [isIdOp] using h0)
    | attr v =>
      simp [collect]
      exact ih (by simpa [isIdOp] using h0)
    | pseudoClass v =>
      simp [collect]
      exact ih (by simpa [isIdOp] using h0)
    | pseudoElement v =>
      simp [collect]
      exact ih (by simpa [isIdOp] using h0)

theorem collect_pe_none (ops : List SelectorOp) :
    ops.countP isPseudoElementOp = 0 → (collect ops).pseudoElementPart = none := by
  induction ops with
  | nil => intro h0; rfl
  | cons o rest ih =>
    intro h0
    rw [List.countP_cons] at h0
    cases o with
    | element v =>
      simp [collect]
      exact ih (by simpa [isPseudoElementOp] using h0)
    | id v =>
      simp [collect]
      exact ih (by simpa [isPseudoElementOp] using h0)
    | cls v =>
      simp [collect]
      exact ih (by simpa [isPseudoElementOp] using h0)
    | attr v =>
      simp [collect]
      exact ih (by simpa [isPseudoElementOp] using h0)
    | pseudoClass v =>
      simp [collect]
      exact ih (by simpa [isPseudoElementOp] using h0)
    | pseudoElement v => simp [isPseudoElementOp] at h0

theorem collect_cls_nil (ops : List SelectorOp) :
    ops.countP isClsOp = 0 → (collect ops).classParts = [] := by
  induction ops with
  | nil => intro h0; rfl
  | cons o rest ih =>
    intro h0
    rw [List.countP_cons] at h0
    cases o with
    | element v =>
      simp [collect]
      exact ih (by simpa [isClsOp] using h0)
    | id v =>
      simp [collect]
      exact ih (by simpa [isClsOp] using h0)
    | cls v => simp [isClsOp] at h0
    | attr v =>
      simp [collect]
      exact ih (by simpa [isClsOp] using h0)
    | pseudoClass v =>
      simp [collect]
      exact ih (by simpa [isClsOp] using h0)
    | pseudoElement v =>
      simp [collect]
      exact ih (by simpa [isClsOp] using h0)

theorem collect_attr_nil (ops : List SelectorOp) :
    ops.countP isAttrOp = 0 → (collect ops).attrParts = [] := by
  induction ops with
  | nil => intro h0; rfl
  | cons o rest ih =>
    intro h0
    rw [List.countP_cons] at h0
    cases o with
    | element v =>
      simp [collect]
      exact ih (by simpa [isAttrOp] using h0)
    | id v =>
      simp [collect]
      exact ih (by simpa [isAttrOp] using h0)
    | cls v =>
      simp [collect]
      exact ih (by simpa [isAttrOp] using h0)
    | attr v => simp [isAttrOp] at h0
    | pseudoClass v =>
      simp [collect]
      exact ih (by simpa [isAttrOp] using h0)
    | pseudoElement v =>
      simp [collect]
      exact ih (by simpa [isAttrOp] using h0)

theorem collect_pc_nil (ops : List SelectorOp) :
    ops.countP isPseudoClassOp = 0 → (collect ops).pseudoClassParts = [] := by
  induction ops with
  | nil => intro h0; rfl
  | cons o rest ih =>
    intro h0
    rw [List.countP_cons] at h0
    cases o with
    | element v =>
      simp [collect]
      exact ih (by simpa [isPseudoClassOp] using h0)
    | id v =>
      simp [collect]
      exact ih (by simpa [isPseudoClassOp] using h0)
    | cls v =>
      simp [collect]
      exact ih (by simpa [isPseudoClassOp] using h0)
    | attr v =>
      simp [collect]
      exact ih (by simpa [isPseudoClassOp] using h0)
    | pseudoClass v => simp [isPseudoClassOp] at h0
    | pseudoElement v =>
      simp [collect]
      exact ih (by simpa [isPseudoClassOp] using h0)


/-! ## In-order concatenation agrees with the spec's grouped rendering -/

theorem strConcat_eq_specRender (ops : List SelectorOp) :
    ∀ (w : Nat), ranksChain w ops = true →
    ops.countP isElementOp ≤ 1 → ops.countP isIdOp ≤ 1 →
    ops.countP isPseudoElementOp ≤ 1 →
    strConcat (ops.map frag) = specRender (collect ops) := by
  induction ops with
  | nil =>
    intro w h1 h2 h3 h4
    simp [strConcat, specRender, collect, emptyParts, optStr]
  | cons o rest ih =>
    intro w hch hce hci hcp
    simp only [ranksChain, Bool.and_eq_true, decide_eq_true_eq] at hch
    obtain ⟨hw0, hchrest⟩ := hch
    have hmem := ranksChain_mem rest (rank o) hchrest
    rw [List.countP_cons] at hce hci hcp
    have hce1 : rest.countP isElementOp ≤ 1 := by omega
    have hci1 : rest.countP isIdOp ≤ 1 := by omega
    have hcp1 : rest.countP isPseudoElementOp ≤ 1 := by omega
    cases o with
    | element v =>
      have he0 : rest.countP isElementOp = 0 := by
        have h1 : (if isElementOp (SelectorOp.element v) = true
            then 1 else 0) = 1 := by simp [isElementOp]
        omega
      rw [List.map_cons]
      simp only [strConcat]
      rw [ih (rank (SelectorOp.element v)) hchrest hce1 hci1 hcp1]
      simp [specRender, collect, frag, optStr, collect_elem_none rest he0,
        String.append_assoc]
    | id v =>
      have he0 := no_elem_of_rank rest (rank (SelectorOp.id v))
        (by simp [rank]) hmem
      have hi0 : rest.countP isIdOp = 0 := by
        have h1 : (if isIdOp (SelectorOp.id v) = true then 1 else 0) = 1 := by
          simp [isIdOp]
        omega
      rw [List.map_cons]
      simp only [strConcat]
      rw [ih (rank (SelectorOp.id v)) hchrest hce1 hci1 hcp1]
      simp [specRender, collect, frag, optStr, collect_elem_none rest he0,
        collect_id_none rest hi0, String.append_assoc]
    | cls v =>
      have he0 := no_elem_of_rank rest (rank (SelectorOp.cls v))
        (by simp [rank]) hmem
      have hi0 := no_id_of_rank rest (rank (SelectorOp.cls v))
        (by simp [rank]) hmem
      rw [List.map_cons]
      simp only [strConcat]
      rw [ih (rank (SelectorOp.cls v)) hchrest hce1 hci1 hcp1]
      simp [specRender, collect, frag, optStr, collect_elem_none rest he0,
        collect_id_none rest hi0, strConcat, String.append_assoc]
    | attr v =>
      have he0 := no_elem_of_rank rest (rank (SelectorOp.attr v))
        (by simp [rank]) hmem
      have hi0 := no_id_of_rank rest (rank (SelectorOp.attr v))
        (by simp [rank]) hmem
      have hc0 := no_cls_of_rank rest (rank (SelectorOp.attr v))
        (by simp [rank]) hmem
      rw [List.map_cons]
      simp only [strConcat]
      rw [ih (rank (SelectorOp.attr v)) hchrest hce1 hci1 hcp1]
      simp [specRender, collect, frag, optStr, collect_elem_none rest he0,
        collect_id_none rest hi0, collect_cls_nil rest hc0, strConcat,
        String.append_assoc]
    | pseudoClass v =>
      have he0 := no_elem_of_rank rest (rank (SelectorOp.pseudoClass v))
        (by simp [rank]) hmem
      have hi0 := no_id_of_rank rest (rank (SelectorOp.pseudoClass v))
        (by simp [rank]) hmem
      have hc0 := no_cls_of_rank rest (rank (SelectorOp.pseudoClass v))
        (by simp [rank]) hmem
      have ha0 := no_attr_of_rank rest (rank (SelectorOp.pseudoClass v))
        (by simp [rank]) hmem
      rw [List.map_cons]
      simp only [strConcat]
      rw [ih (rank (SelectorOp.pseudoClass v)) hchrest hce1 hci1 hcp1]
      simp [specRender, collect, frag, optStr, collect_elem_none rest he0,
        collect_id_none rest hi0, collect_cls_nil rest hc0,
        collect_attr_nil rest ha0, strConcat, String.append_assoc]
    | pseudoElement v =>
      have hall : ∀ a ∈ rest, isPseudoElementOp a = true :=
        fun a ha => rank_ge_pe a (hmem a ha)
      have hp0 : rest.countP isPseudoElementOp = 0 := by
        have h1 : (if isPseudoElementOp (SelectorOp.pseudoElement v) = true
            then 1 else 0) = 1 := by simp [isPseudoElementOp]
        omega
      have hrest : rest = [] := by
        cases rest with
        | nil => rfl
        | cons a t =>
          exfalso
          have h1 := hall a (List.mem_cons_self a t)
          have h2 := List.countP_eq_zero.mp hp0 a (List.mem_cons_self a t)
          simp [h1] at h2
      subst hrest
      simp [strConcat, frag, specRender, collect, emptyParts, optStr]

/-! ## Claims -/

/-- C1: for every sequence of append operations that runs without error
from a fresh builder, `stringify()` returns the concatenation of the
fragments in the fixed category order — element token verbatim, id
prefixed with `#`, each class prefixed with `.`, each attribute wrapped
in `[` `]`, each pseudo-class prefixed with `:`, pseudo-element prefixed
with `::` — with repeatable categories in insertion order. -/
theorem C1_stringify_renders_in_category_order (ops : List SelectorOp)
    (s1 : CSSSelectorBuilder) (h : runOps ops createObject = (none, s1)) :
    s1.stringify.1 = specRender (collect ops) := by
  obtain ⟨hstr, hchain, hce, hci, hcp⟩ := runOps_ok ops createObject s1 h
  simp [createObject] at hce hci hcp
  show s1.string = specRender (collect ops)
  rw [hstr]
  simp [createObject]
  exact strConcat_eq_specRender ops (createObject.weight.getD 0) hchain
    hce hci hcp

/-- Witness for C1 at the spec's example
`element('a').attr('href$=".png"').pseudoClass('focus')`. -/
theorem C1_witness :
    (CSSSelectorBuilder.stringify
      (runOps [SelectorOp.element "a", SelectorOp.attr "href$=\".png\"",
        SelectorOp.pseudoClass "focus"] createObject).2).1
      = "a[href$=\".png\"]:focus" := by
  have h := C1_stringify_renders_in_category_order
    [SelectorOp.element "a", SelectorOp.attr "href$=\".png\"",
      SelectorOp.pseudoClass "focus"]
    (runOps [SelectorOp.element "a", SelectorOp.attr "href$=\".png\"",
      SelectorOp.pseudoClass "focus"] createObject).2 rfl
  exact h.trans (by decide)

/-- C2 counterexample: on the instance built by `id('a').class('b')`,
appending `id('c')` has strictly lower rank than the stored weight, yet
the raised error is the uniqueness error, not the order error. -/
theorem C2_counterexample :
    rank (SelectorOp.id "c")
        < ((runOps [SelectorOp.id "a", SelectorOp.cls "b"]
            createObject).2.weight.getD 0)
    ∧ (applyOp (SelectorOp.id "c")
        (runOps [SelectorOp.id "a", SelectorOp.cls "b"] createObject).2).1
        = some SelErr.uniqueness
    ∧ (applyOp (SelectorOp.id "c")
        (runOps [SelectorOp.id "a", SelectorOp.cls "b"] createObject).2).1
        ≠ some SelErr.order := by decide

/-- C2 (amended): appending a category of strictly lower rank than the
stored weight always fails, and with the order error whenever the
category is not a singleton already set (otherwise the uniqueness check
fires first); no append ever decreases the stored weight, and
`stringify` leaves the weight unchanged. -/
theorem C2_rank_monotone_order_error (s : CSSSelectorBuilder)
    (o : SelectorOp) :
    (rank o < s.weight.getD 0 →
      (applyOp o s).1 ≠ none
      ∧ (dupFlag o s = false → (applyOp o s).1 = some SelErr.order))
    ∧ s.weight.getD 0 ≤ ((applyOp o s).2.weight.getD 0)
    ∧ s.stringify.2.weight = s.weight := by
  refine ⟨fun hO => ⟨?_, fun hD => ?_⟩, ?_, rfl⟩
  · by_cases hD : dupFlag o s = true
    · rw [applyOp_dup o s hD]; simp
    · rw [Bool.not_eq_true] at hD
      rw [applyOp_order o s hD hO]; simp
  · rw [applyOp_order o s hD hO]
  · by_cases hD : dupFlag o s = true
    · rw [applyOp_dup o s hD]
    · rw [Bool.not_eq_true] at hD
      by_cases hO : rank o < s.weight.getD 0
      · rw [applyOp_order o s hD hO]
      · have hnone : (applyOp o s).1 = none :=
          applyOp_none o s hD (by omega)
        rcases hA : applyOp o s with ⟨e, s1⟩
        rw [hA] at hnone
        simp at hnone
        subst hnone
        obtain ⟨-, hw, hle, -⟩ := applyOp_ok o s s1 hA
        simp [hw]
        omega

/-- Witness for C2: `class` after `attr` raises the order error. -/
theorem C2_witness :
    (applyOp (SelectorOp.cls "x")
      (runOps [SelectorOp.attr "y"] createObject).2).1
      = some SelErr.order := by
  have h := (C2_rank_monotone_order_error
    (runOps [SelectorOp.attr "y"] createObject).2 (SelectorOp.cls "x")).1
    (by decide)
  exact h.2 (by decide)

/-- C3: element, id and pseudo-element may each be set at most once — a
second append of the same singleton category raises the uniqueness
error — while class, attribute and pseudo-class carry no uniqueness
check: they never raise the uniqueness error, and re-appending them
right after a successful append of the same category succeeds. -/
theorem C3_singletons_unique_repeatables_free (s s1 : CSSSelectorBuilder)
    (v w1 : String) :
    (applyOp (SelectorOp.element v) s = (none, s1) →
      (applyOp (SelectorOp.element w1) s1).1 = some SelErr.uniqueness)
    ∧ (applyOp (SelectorOp.id v) s = (none, s1) →
      (applyOp (SelectorOp.id w1) s1).1 = some SelErr.uniqueness)
    ∧ (applyOp (SelectorOp.pseudoElement v) s = (none, s1) →
      (applyOp (SelectorOp.pseudoElement w1) s1).1 = some SelErr.uniqueness)
    ∧ (applyOp (SelectorOp.cls v) s).1 ≠ some SelErr.uniqueness
    ∧ (applyOp (SelectorOp.attr v) s).1 ≠ some SelErr.uniqueness
    ∧ (applyOp (SelectorOp.pseudoClass v) s).1 ≠ some SelErr.uniqueness
    ∧ (applyOp (SelectorOp.cls v) s = (none, s1) →
      (applyOp (SelectorOp.cls w1) s1).1 = none)
    ∧ (applyOp (SelectorOp.attr v) s = (none, s1) →
      (applyOp (SelectorOp.attr w1) s1).1 = none)
    ∧ (applyOp (SelectorOp.pseudoClass v) s = (none, s1) →
      (applyOp (SelectorOp.pseudoClass w1) s1).1 = none) := by
  refine ⟨fun h => ?_, fun h => ?_, fun h => ?_, ?_, ?_, ?_,
    fun h => ?_, fun h => ?_, fun h => ?_⟩
  · obtain ⟨-, -, -, hfe, -⟩ := applyOp_ok _ s s1 h
    have hD : dupFlag (SelectorOp.element w1) s1 = true := by
      simp [dupFlag, hfe, isElementOp]
    rw [applyOp_dup _ _ hD]
  · obtain ⟨-, -, -, -, hfi, -⟩ := applyOp_ok _ s s1 h
    have hD : dupFlag (SelectorOp.id w1) s1 = true := by
      simp [dupFlag, hfi, isIdOp]
    rw [applyOp_dup _ _ hD]
  · obtain ⟨-, -, -, -, -, hfp, -⟩ := applyOp_ok _ s s1 h
    have hD : dupFlag (SelectorOp.pseudoElement w1) s1 = true := by
      simp [dupFlag, hfp, isPseudoElementOp]
    rw [applyOp_dup _ _ hD]
  · by_cases hO : rank (SelectorOp.cls v) < s.weight.getD 0
    · rw [applyOp_order (SelectorOp.cls v) s (by simp [dupFlag]) hO]; simp
    · rw [applyOp_none (SelectorOp.cls v) s (by simp [dupFlag])
        (by omega)]
      simp
  · by_cases hO : rank (SelectorOp.attr v) < s.weight.getD 0
    · rw [applyOp_order (SelectorOp.attr v) s (by simp [dupFlag]) hO]; simp
    · rw [applyOp_none (SelectorOp.attr v) s (by simp [dupFlag])
        (by omega)]
      simp
  · by_cases hO : rank (SelectorOp.pseudoClass v) < s.weight.getD 0
    · rw [applyOp_order (SelectorOp.pseudoClass v) s (by simp [dupFlag]) hO]; simp
    · rw [applyOp_none (SelectorOp.pseudoClass v) s (by simp [dupFlag])
        (by omega)]
      simp
  · obtain ⟨-, hw, -⟩ := applyOp_ok _ s s1 h
    exact applyOp_none (SelectorOp.cls w1) s1 (by simp [dupFlag])
      (by simp [hw, rank])
  · obtain ⟨-, hw, -⟩ := applyOp_ok _ s s1 h
    exact applyOp_none (SelectorOp.attr w1) s1 (by simp [dupFlag])
      (by simp [hw, rank])
  · obtain ⟨-, hw, -⟩ := applyOp_ok _ s s1 h
    exact applyOp_none (SelectorOp.pseudoClass w1) s1 (by simp [dupFlag])
      (by simp [hw, rank])

/-- Witness for C3: appending `id` twice raises the uniqueness error. -/
theorem C3_witness :
    (applyOp (SelectorOp.id "b")
      (runOps [SelectorOp.id "a"] createObject).2).1
      = some SelErr.uniqueness := by
  exact (C3_singletons_unique_repeatables_free createObject
    (runOps [SelectorOp.id "a"] createObject).2 "a" "b").2.1 (by decide)

/-- C4: the composite built by `combine(left, c, right)` renders as
`render(left) + " " + c + " " + render(right)`. -/
theorem C4_combine_renders_concatenation (s1 s2 : CSSSelectorBuilder)
    (c : String) :
    ((cssSelectorBuilder.combine s1 c s2).1).stringify.1
      = s1.stringify.1 ++ " " ++ c ++ " " ++ s2.stringify.1 := rfl

/-- C5: `stringify` drains the accumulated-text buffer — afterwards the
buffer is empty and a second `stringify` returns the empty string —
while the three category-set flags and the stored weight are unchanged. -/
theorem C5_stringify_drains_buffer_only (s : CSSSelectorBuilder) :
    s.stringify.2.string = ""
    ∧ (s.stringify.2).stringify.1 = ""
    ∧ s.stringify.2.existsElement = s.existsElement
    ∧ s.stringify.2.existsId = s.existsId
    ∧ s.stringify.2.existsPseudoElement = s.existsPseudoElement
    ∧ s.stringify.2.weight = s.weight :=
  ⟨rfl, rfl, rfl, rfl, rfl, rfl⟩

/-- C6: every append is atomic with respect to errors — if it raises
either error, the instance's state is exactly what it was before. -/
theorem C6_append_error_atomic (o : SelectorOp) (s : CSSSelectorBuilder)
    (e : SelErr) (h : (applyOp o s).1 = some e) :
    (applyOp o s).2 = s :=
  applyOp_err_frame o s e h

/-- Witness for C6: the failing `class` after `attr` leaves the instance
unchanged. -/
theorem C6_witness :
    (applyOp (SelectorOp.cls "x")
      (runOps [SelectorOp.attr "y"] createObject).2).2
      = (runOps [SelectorOp.attr "y"] createObject).2 :=
  C6_append_error_atomic (SelectorOp.cls "x")
    (runOps [SelectorOp.attr "y"] createObject).2 SelErr.order (by decide)

/-- C7 counterexample: after `class('a')` and a failed `element('x')`
append, appending `class('b')` — whose rank equals the last successfully
appended rank — succeeds, so a same-rank append does not always fail. -/
theorem C7_counterexample :
    (applyOp (SelectorOp.element "x")
      (runOps [SelectorOp.cls "a"] createObject).2).1 = some SelErr.order
    ∧ rank (SelectorOp.cls "b")
        = ((applyOp (SelectorOp.element "x")
            (runOps [SelectorOp.cls "a"] createObject).2).2.weight.getD 0)
    ∧ (applyOp (SelectorOp.cls "b")
        (applyOp (SelectorOp.element "x")
          (runOps [SelectorOp.cls "a"] createObject).2).2).1 = none := by
  decide

/-- C7 (amended): after an error the instance is unchanged and remains
usable; any further append of strictly lower rank than the stored weight
fails, and a same-rank append fails exactly when the category is a
singleton already set on the instance (repeatable same-rank appends
succeed). -/
theorem C7_post_error_appends (s : CSSSelectorBuilder) (o o2 : SelectorOp)
    (e : SelErr) (h : (applyOp o s).1 = some e) :
    (applyOp o s).2 = s
    ∧ (rank o2 < s.weight.getD 0 → (applyOp o2 (applyOp o s).2).1 ≠ none)
    ∧ (rank o2 = s.weight.getD 0 →
        ((applyOp o2 (applyOp o s).2).1 ≠ none ↔ dupFlag o2 s = true)) := by
  have hfr := applyOp_err_frame o s e h
  refine ⟨hfr, ?_, ?_⟩
  · intro hO
    rw [hfr]
    by_cases hD : dupFlag o2 s = true
    · rw [applyOp_dup _ _ hD]; simp
    · rw [Bool.not_eq_true] at hD
      rw [applyOp_order _ _ hD hO]; simp
  · intro hEq
    rw [hfr]
    constructor
    · intro hne
      by_contra hD
      rw [Bool.not_eq_true] at hD
      exact hne (applyOp_none o2 s hD (by omega))
    · intro hD
      rw [applyOp_dup _ _ hD]; simp

/-- Witness for C7: after the failed `element` append the instance still
rejects a lower-rank `id` append. -/
theorem C7_witness :
    (applyOp (SelectorOp.id "q")
      (applyOp (SelectorOp.element "x")
        (runOps [SelectorOp.cls "a"] createObject).2).2).1 ≠ none := by
  exact (C7_post_error_appends (runOps [SelectorOp.cls "a"] createObject).2
    (SelectorOp.element "x") (SelectorOp.id "q") SelErr.order
    (by decide)).2.1 (by decide)

/-- C9: `combine` invokes `stringify()` on both of its selector
arguments, so afterwards their buffers are empty and a direct
`stringify()` on either returns the empty string. -/
theorem C9_combine_drains_arguments (s1 s2 : CSSSelectorBuilder)
    (c : String) :
    (cssSelectorBuilder.combine s1 c s2).2.1.string = ""
    ∧ (cssSelectorBuilder.combine s1 c s2).2.2.string = ""
    ∧ ((cssSelectorBuilder.combine s1 c s2).2.1).stringify.1 = ""
    ∧ ((cssSelectorBuilder.combine s1 c s2).2.2).stringify.1 = "" :=
  ⟨rfl, rfl, rfl, rfl⟩

/-- C10: for the singleton categories the uniqueness check runs before
the order check — on an instance where the flag is set and the new
append is also out of rank order, the result is the uniqueness error,
never the order error. -/
theorem C10_uniqueness_before_order (s : CSSSelectorBuilder) (v : String) :
    (s.existsElement = true →
      rank (SelectorOp.element v) < s.weight.getD 0 →
      applyOp (SelectorOp.element v) s = (some SelErr.uniqueness, s))
    ∧ (s.existsId = true →
      rank (SelectorOp.id v) < s.weight.getD 0 →
      applyOp (SelectorOp.id v) s = (some SelErr.uniqueness, s))
    ∧ (s.existsPseudoElement = true →
      rank (SelectorOp.pseudoElement v) < s.weight.getD 0 →
      applyOp (SelectorOp.pseudoElement v) s = (some SelErr.uniqueness, s)) := by
  refine ⟨fun hE hO => ?_, fun hE hO => ?_, fun hE hO => ?_⟩ <;>
    exact applyOp_dup _ _ hE

/-- Witness for C10: `id('a').class('b')` then `id('c')` raises the
uniqueness error even though the append is also out of order. -/
theorem C10_witness :
    applyOp (SelectorOp.id "c")
      (runOps [SelectorOp.id "a", SelectorOp.cls "b"] createObject).2
      = (some SelErr.uniqueness,
        (runOps [SelectorOp.id "a", SelectorOp.cls "b"] createObject).2) := by
  exact (C10_uniqueness_before_order
    (runOps [SelectorOp.id "a", SelectorOp.cls "b"] createObject).2 "c").2.1
    (by decide) (by decide)

/-! ### List bookkeeping lemmas for the world model -/

theorem set_append_last {A : Type} (l : List A) (a b : A) :
    (l ++ [a]).set l.length b = l ++ [b] := by
  induction l with
  | nil => rfl
  | cons x xs ih =>
    show x :: ((xs ++ [a]).set xs.length b) = x :: (xs ++ [b])
    rw [ih]

theorem getD_append_last {A : Type} (l : List A) (a d : A) :
    (l ++ [a]).getD l.length d = a := by
  induction l with
  | nil => rfl
  | cons x xs ih =>
    show (xs ++ [a]).getD xs.length d = a
    exact ih

theorem getD_set_ne {A : Type} (l : List A) (i j : Nat) (b d : A)
    (h : i ≠ j) : (l.set i b).getD j d = l.getD j d := by
  induction l generalizing i j with
  | nil => rfl
  | cons x xs ih =>
    cases i with
    | zero =>
      cases j with
      | zero => exact absurd rfl h
      | succ j2 => rfl
    | succ i2 =>
      cases j with
      | zero => rfl
      | succ j2 =>
        show (xs.set i2 b).getD j2 d = xs.getD j2 d
        exact ih i2 j2 (fun hh => h (by rw [hh]))

theorem getD_set_self {A : Type} (l : List A) (i : Nat) (b d : A)
    (h : i < l.length) : (l.set i b).getD i d = b := by
  induction l generalizing i with
  | nil => simp at h
  | cons x xs ih =>
    cases i with
    | zero => rfl
    | succ i2 => exact ih i2 (by simpa using h)

theorem getD_append_left {A : Type} (l l2 : List A) (i : Nat) (d : A)
    (h : i < l.length) : (l ++ l2).getD i d = l.getD i d := by
  induction l generalizing i with
  | nil => simp at h
  | cons x xs ih =>
    cases i with
    | zero => rfl
    | succ i2 => exact ih i2 (by simpa using h)

theorem set_append_left {A : Type} (l l2 : List A) (i : Nat) (b : A)
    (h : i < l.length) : (l ++ l2).set i b = l.set i b ++ l2 := by
  induction l generalizing i with
  | nil => simp at h
  | cons x xs ih =>
    cases i with
    | zero => rfl
    | succ i2 =>
      show x :: ((xs ++ l2).set i2 b) = x :: (xs.set i2 b ++ l2)
      rw [ih i2 (by simpa using h)]

theorem facadeCat_spec (w : BuilderWorld) (o : SelectorOp) :
    facadeCat w o
      = (⟨w.builders ++ [(applyOp o createObject).2]⟩,
        w.builders.length) := by
  simp only [facadeCat]
  rw [getD_append_last, set_append_last]

theorem getD_append_last_of {A : Type} (l : List A) (a d : A) (n : Nat)
    (h : n = l.length) : (l ++ [a]).getD n d = a := by
  subst h; exact getD_append_last l a d

theorem set_append_last_of {A : Type} (l : List A) (a b : A) (n : Nat)
    (h : n = l.length) : (l ++ [a]).set n b = l ++ [b] := by
  subst h; exact set_append_last l a b

/-- What one facade `combine(i, c, j)` call does to the world: the two
argument slots are drained, and the composite is a fresh instance whose
state is exactly `cssSelectorBuilder.combine` of the two arguments. -/
theorem facadeCombine_spec (w : BuilderWorld) (i j : Nat) (c : String)
    (hi : i < w.builders.length) (hj : j < w.builders.length)
    (hne : i ≠ j) :
    facadeStep w (FacadeCall.combine i c j)
      = (⟨((w.builders.set i
            ((w.builders.getD i createObject).stringify.2)).set j
            ((w.builders.getD j createObject).stringify.2))
          ++ [(cssSelectorBuilder.combine (w.builders.getD i createObject) c
              (w.builders.getD j createObject)).1]⟩,
        w.builders.length) := by
  simp only [facadeStep]
  rw [getD_append_left w.builders [createObject] i createObject hi]
  rw [set_append_left w.builders [createObject] i _ hi]
  rw [getD_append_left
    (w.builders.set i ((w.builders.getD i createObject).stringify.2))
    [createObject] j createObject (by simpa using hj)]
  rw [getD_set_ne w.builders i j _ createObject hne]
  rw [set_append_left
    (w.builders.set i ((w.builders.getD i createObject).stringify.2))
    [createObject] j _ (by simpa using hj)]
  rw [getD_append_last_of _ createObject createObject w.builders.length
    (by simp)]
  rw [set_append_last_of _ createObject _ w.builders.length (by simp)]
  rfl

/-- C8: every facade entry point returns a reference to a freshly
allocated builder (the next unused index, so it aliases no previously
returned value); for the six category entry points the new world is the
old one — every existing builder untouched — plus one fresh instance
with exactly the named operation applied, and for `combine` the fresh
composite's state is exactly `combine` applied to a fresh instance and
the two arguments. -/
theorem C8_facade_fresh_instances (w : BuilderWorld) (cal : FacadeCall) :
    (facadeStep w cal).2 = w.builders.length
    ∧ (∀ o, catOf cal = some o →
        (facadeStep w cal).1.builders
          = w.builders ++ [(applyOp o createObject).2])
    ∧ (∀ i c j, cal = FacadeCall.combine i c j →
        i < w.builders.length → j < w.builders.length → i ≠ j →
        (facadeStep w cal).1.builders.getD w.builders.length createObject
          = (cssSelectorBuilder.combine (w.builders.getD i createObject) c
              (w.builders.getD j createObject)).1) := by
  cases cal with
  | element v => simp [facadeStep, facadeCat_spec, catOf]
  | id v => simp [facadeStep, facadeCat_spec, catOf]
  | cls v => simp [facadeStep, facadeCat_spec, catOf]
  | attr v => simp [facadeStep, facadeCat_spec, catOf]
  | pseudoClass v => simp [facadeStep, facadeCat_spec, catOf]
  | pseudoElement v => simp [facadeStep, facadeCat_spec, catOf]
  | combine i c j =>
    refine ⟨rfl, ?_, ?_⟩
    · intro o ho
      simp [catOf] at ho
    · intro i2 c2 j2 hEq hi hj hne
      injection hEq with h1 h2 h3
      subst h1; subst h2; subst h3
      rw [facadeCombine_spec w i j c hi hj hne]
      exact getD_append_last_of _ _ _ _ (by simp)

/-- Witness for C8: an `element` call on the empty world allocates
exactly one fresh builder with `element` applied, and a `combine` call
on a two-builder world stores the combined state in the fresh slot. -/
theorem C8_witness :
    (facadeStep ⟨[]⟩ (FacadeCall.element "div")).1.builders
      = [(applyOp (SelectorOp.element "div") createObject).2]
    ∧ (facadeStep ⟨[createObject, createObject]⟩
        (FacadeCall.combine 0 "+" 1)).1.builders.getD 2 createObject
      = (cssSelectorBuilder.combine createObject "+" createObject).1 := by
  constructor
  · have h := (C8_facade_fresh_instances ⟨[]⟩ (FacadeCall.element "div")).2.1
      (SelectorOp.element "div") rfl
    simpa using h
  · have h := (C8_facade_fresh_instances ⟨[createObject, createObject]⟩
      (FacadeCall.combine 0 "+" 1)).2.2 0 "+" 1 rfl (by decide) (by decide)
      (by decide)
    simpa using h
